import Mathlib

/-!
Shallow embedding of `src/controller/device/v1/orderItemController.js`.

The controller is a set of twelve request handlers over a document store.
Each handler is embedded as a pure Lean function taking the request, the
result of the (external) Joi validation collaborator where the source calls
it, and an oracle `db : DbCall → DbResult` standing for the data-access
layer `dbService`.  A handler returns the response envelope it produces
together with the list of data-access calls it issued, so that properties
about call counts and about the exact payload handed to the store are
statable.

JavaScript values occurring in request bodies are modelled by the inductive
type `Value`; objects are association lists whose lookup takes the LAST
binding (matching the semantics of object spread, where later keys
override earlier ones).
-/

set_option autoImplicit false

/-- JSON-like JavaScript runtime values as they appear in request bodies,
database payloads and responses. -/
inductive Value where
  | null
  | bool (b : Bool)
  | num (n : Int)
  | str (s : String)
  | arr (elems : List Value)
  | obj (fields : List (String × Value))

/-- Property lookup on an object represented as an association list.
The LAST binding for a key wins, so that list append models JavaScript
object spread (`\x7b...a, ...b\x7d`: keys of `b` override keys of `a`). -/
def objGet : List (String × Value) → String → Option Value
  | [], _ => none
  | (k, v) :: rest, key =>
    match objGet rest key with
    | some v2 => some v2
    | none => if k = key then some v else none

/-- JavaScript `delete o[k]`: remove every binding of the key. -/
def objDelete : List (String × Value) → String → List (String × Value)
  | [], _ => []
  | (pk, v) :: rest, k =>
    if pk = k then objDelete rest k else (pk, v) :: objDelete rest k

/-- JavaScript property assignment `o[k] = v` (as far as lookup is
concerned): append a binding, which wins under last-binding lookup. -/
def objSet (fields : List (String × Value)) (k : String) (v : Value) : List (String × Value) :=
  fields ++ [(k, v)]

/-- JavaScript truthiness of a value (`undefined` is handled by
`truthyOpt` on `Option Value`). -/
def truthy : Value → Bool
  | .null => false
  | .bool b => b
  | .num n => n != 0
  | .str s => s ≠ ""
  | .arr _ => true
  | .obj _ => true

/-- Truthiness of a possibly-absent (`undefined`) value. -/
def truthyOpt : Option Value → Bool
  | none => false
  | some v => truthy v

/-- JavaScript `Array.isArray` on a possibly-absent value. -/
def isArrayOpt : Option Value → Bool
  | some (.arr _) => true
  | _ => false

/-- Length used in the `ids.length < 1` test; only reached when the value
is an array (the preceding `Array.isArray` test short-circuits otherwise). -/
def idsLen : Option Value → Int
  | some (.arr elems) => (elems.length : Int)
  | _ => 0

/-- The guard `!ids || !Array.isArray(ids) || ids.length < 1` shared by
`softDeleteManyOrderItem` and `deleteManyOrderItem`. -/
def idsCheckFails (ids : Option Value) : Bool :=
  !truthyOpt ids || !isArrayOpt ids || idsLen ids < 1

/-- JavaScript test `typeof x === 'object' && x !== null` (arrays also have
`typeof` equal to `'object'`). -/
def isObjectNotNull : Option Value → Bool
  | some (.obj _) => true
  | some (.arr _) => true
  | _ => false

/-- Object spread `\x7b...x\x7d` guarded by
`typeof x === 'object' && x !== null`, else the empty object: used for
`query`, `options`, `where`, `filter` and bulk-update `data`.  Spreading an
array yields index-keyed fields, as in JavaScript. -/
def spreadIfObject : Option Value → List (String × Value)
  | some (.obj fields) => fields
  | some (.arr elems) => elems.enum.map (fun p => (toString p.1, p.2))
  | _ => []

/-- Property access `v.k` on an arbitrary value (absent on non-objects). -/
def getProp : Value → String → Option Value
  | .obj fields, k => objGet fields k
  | _, _ => none

/-- JavaScript `.length` access: defined for arrays and strings, an
ordinary field on objects, absent otherwise. -/
def jsLength : Value → Option Value
  | .arr elems => some (.num (elems.length : Int))
  | .str s => some (.num (s.length : Int))
  | .obj fields => objGet fields "length"
  | _ => none

/-- An exception caught by a handler: the fields the catch blocks inspect
(`error.name`, `error.code`, `error.message`). -/
structure JsError where
  name : String
  code : Option Int
  message : String
deriving Repr, DecidableEq

/-- The response envelopes produced via `res.*`.  `ok` carries the value
passed as `data`; `failureResponse` carries `some message` when called as
`res.failureResponse(\x7b data: error.message \x7d)` and `none` when called
bare as `res.failureResponse()`. -/
inductive Response where
  | ok (data : Value)
  | recordNotFound
  | badRequest
  | invalidObjectId
  | inValidParam (message : String)
  | validationError (message : String)
  | isDuplicate
  | failureResponse (data : Option String)

/-- One call to the `dbService` data-access layer, with the payload the
controller hands over (the `OrderItem` model argument is implicit: every
call in this controller passes it). -/
inductive DbCall where
  | createDocument (doc : List (String × Value))
  | getAllDocuments (query : List (String × Value)) (options : List (String × Value))
  | countDocument (query : List (String × Value))
  | bulkUpdate (query : List (String × Value)) (updateBody : List (String × Value))
  | bulkInsert (docs : List Value)
  | deleteMany (query : List (String × Value))
  | findOneAndUpdateDocument (query : List (String × Value)) (data : List (String × Value))
      (options : List (String × Value))
  | findOneAndDeleteDocument (query : List (String × Value))
  | getSingleDocument (query : List (String × Value)) (options : List (String × Value))

/-- Outcome of a data-access call: the awaited value, or a raised error
that the handler's catch block will receive. -/
inductive DbResult where
  | success (v : Value)
  | thrown (e : JsError)

/-- Result shape of the external validation collaborator
(`validateParamsWithJoi` / `validateFilterWithJoi`). -/
structure ValidateResult where
  isValid : Bool
  message : String
deriving Repr, DecidableEq

/-- The parts of the request the controller reads: the (object) body, the
`id` path parameter, and the authenticated caller identity `req.user.id`. -/
structure Request where
  body : List (String × Value)
  params_id : String
  user_id : Value

/-- Duplicate-key test `error.code && error.code == 11000` from the catch
blocks (the first conjunct is JavaScript truthiness of `code`). -/
def isDuplicateErr (e : JsError) : Bool :=
  match e.code with
  | some n => n != 0 && n == 11000
  | none => false

/-- The catch block shared (textually) by `addOrderItem`,
`bulkInsertOrderItem` and `updateOrderItem`: validation error, then
duplicate key, then generic failure carrying the message. -/
def catchStandard (e : JsError) : Response :=
  if e.name = "ValidationError" then
    .validationError ("Invalid Data, Validation Failed at " ++ e.message)
  else if isDuplicateErr e then
    .isDuplicate
  else
    .failureResponse (some e.message)

/-- A data-access layer that raises the given error on every call. -/
def dbThrow (e : JsError) : DbCall → DbResult := fun _ => .thrown e

/-- A data-access layer that returns the null no-match sentinel on every
call. -/
def dbNull : DbCall → DbResult := fun _ => .success .null

/-- The document constructed by `addOrderItem`:
`new OrderItem(\x7b ...req.body, addedBy: req.user.id \x7d)` —
`addedBy` comes after the spread, so it overrides any client value. -/
def addData (req : Request) : List (String × Value) :=
  req.body ++ [("addedBy", req.user_id)]

/-- Handler `addOrderItem`: validate the body, build the document with
`addedBy` stamped from the caller, create it, map errors through the
standard catch block. -/
def addOrderItem (req : Request) (validateRequest : ValidateResult)
    (db : DbCall → DbResult) : Response × List DbCall :=
  if !validateRequest.isValid then
    (.inValidParam ("Invalid values in parameters, " ++ validateRequest.message), [])
  else
    let c := DbCall.createDocument (addData req)
    (match db c with
     | .success result => .ok result
     | .thrown e => catchStandard e, [c])

/-- Test `result && result.data && result.data.length` from
`findAllOrderItem`. -/
def resultHasData (result : Value) : Bool :=
  truthy result &&
    (match getProp result "data" with
     | some d => truthy d && truthyOpt (jsLength d)
     | none => false)

/-- The query object of `findAllOrderItem` and the filter/where/options
spreads: `\x7b ...req.body.query \x7d` when that field is a non-null
object, else `\x7b\x7d`. -/
def findAllQuery (req : Request) : List (String × Value) :=
  spreadIfObject (objGet req.body "query")

/-- Handler `findAllOrderItem`: validate the filter; on `isCountOnly`
return the count, otherwise fetch the page and translate an empty result
into `recordNotFound`. -/
def findAllOrderItem (req : Request) (validateRequest : ValidateResult)
    (db : DbCall → DbResult) : Response × List DbCall :=
  if !validateRequest.isValid then
    (.inValidParam validateRequest.message, [])
  else
    let query := findAllQuery req
    if truthyOpt (objGet req.body "isCountOnly") then
      let c := DbCall.countDocument query
      (match db c with
       | .success totalRecords => .ok (.obj [("totalRecords", totalRecords)])
       | .thrown e => .failureResponse (some e.message), [c])
    else
      let options := spreadIfObject (objGet req.body "options")
      let c := DbCall.getAllDocuments query options
      (match db c with
       | .success result =>
         if resultHasData result then .ok result else .recordNotFound
       | .thrown e => .failureResponse (some e.message), [c])

/-- Handler `getOrderItemCount`: validate the filter, count documents
matching `\x7b ...req.body.where \x7d`, wrap the count as
`\x7b totalRecords \x7d`. -/
def getOrderItemCount (req : Request) (validateRequest : ValidateResult)
    (db : DbCall → DbResult) : Response × List DbCall :=
  if !validateRequest.isValid then
    (.inValidParam validateRequest.message, [])
  else
    let whereQ := spreadIfObject (objGet req.body "where")
    let c := DbCall.countDocument whereQ
    (match db c with
     | .success result => .ok (.obj [("totalRecords", result)])
     | .thrown e => .failureResponse (some e.message), [c])

/-- Handler `softDeleteManyOrderItem`: guard the `ids` array, then flip
`isDeleted` on every matching record via one `bulkUpdate` call; a falsy
result is "not found"; any caught error yields a BARE failure response. -/
def softDeleteManyOrderItem (req : Request) (db : DbCall → DbResult) :
    Response × List DbCall :=
  let ids := objGet req.body "ids"
  if idsCheckFails ids then
    (.badRequest, [])
  else
    let query := [("_id", Value.obj [("$in", Option.getD ids .null)])]
    let updateBody := [("isDeleted", Value.bool true)]
    let c := DbCall.bulkUpdate query updateBody
    (match db c with
     | .success data => if !truthy data then .recordNotFound else .ok data
     | .thrown _ => .failureResponse none, [c])

/-- The TypeError raised by JavaScript when the stamping loop assigns
`addedBy` on a null base. -/
def typeErrorSetNull : JsError :=
  { name := "TypeError", code := none,
    message := "Cannot set properties of null (setting addedBy)" }

/-- The value an element holds after a successful pass of the stamping
loop `data[i].addedBy = req.user.id`: an object gains the `addedBy`
binding; on other primitives sloppy-mode assignment is silently ignored;
on an array the assignment succeeds and creates a non-index property,
which `Value` cannot represent and which no theorem in this file reads
(every payload-exactness claim restricts bulk-insert elements to
objects). -/
def stampedDoc (uid : Value) : Value → Value
  | .obj fields => .obj (objSet fields "addedBy" uid)
  | v => v

/-- One JavaScript assignment `x.addedBy = uid` as executed by the
bulk-insert stamping loop: it throws a TypeError when the base is null
(request bodies are parsed JSON, so `undefined` cannot occur and null is
the only throwing base); otherwise it yields the element as described by
`stampedDoc`. -/
def setAddedBy (uid : Value) : Value → Except JsError Value
  | .null => .error typeErrorSetNull
  | v => .ok (stampedDoc uid v)

/-- The stamping loop `for (let i = 0; i < data.length; i++)
data[i].addedBy = req.user.id`: it aborts at the first throwing element,
before the store is ever called. -/
def stampLoop (uid : Value) : List Value → Except JsError (List Value)
  | [] => .ok []
  | x :: rest =>
    match setAddedBy uid x with
    | .error e => .error e
    | .ok y =>
      match stampLoop uid rest with
      | .error e => .error e
      | .ok ys => .ok (y :: ys)

/-- The `data` array of a bulk-insert body (empty when the field is absent
or not an array; those cases never reach the stamping loop). -/
def bulkInsertElems (req : Request) : List Value :=
  match objGet req.body "data" with
  | some (.arr elems) => elems
  | _ => []

/-- Handler `bulkInsertOrderItem`: require `req.body.data` to be a
non-empty array; when the caller identity is truthy, run the `addedBy`
stamping loop, whose TypeError on a null element is caught by the
handler's own catch block with NO store call made; otherwise insert in one
call; all caught errors go through the standard catch block. -/
def bulkInsertOrderItem (req : Request) (db : DbCall → DbResult) :
    Response × List DbCall :=
  match objGet req.body "data" with
  | some (.arr elems) =>
    if elems.length < 1 then
      (.badRequest, [])
    else
      if truthy req.user_id then
        match stampLoop req.user_id elems with
        | .error e => (catchStandard e, [])
        | .ok data =>
          let c := DbCall.bulkInsert data
          (match db c with
           | .success result => .ok result
           | .thrown e => catchStandard e, [c])
      else
        let c := DbCall.bulkInsert elems
        (match db c with
         | .success result => .ok result
         | .thrown e => catchStandard e, [c])
  | _ => (.badRequest, [])

/-- The update object of `bulkUpdateOrderItem`:
`data = \x7b ...req.body.data \x7d`, then `delete data.addedBy`,
`delete data.updatedBy`, then `data.updatedBy = req.user.id`. -/
def bulkUpdateData (uid : Value) (spreadData : List (String × Value)) :
    List (String × Value) :=
  objSet (objDelete (objDelete spreadData "addedBy") "updatedBy") "updatedBy" uid

/-- Handler `bulkUpdateOrderItem`: spread the filter if present, require
`req.body.data` to be a non-null object, strip the audit fields, stamp
`updatedBy`, then one `bulkUpdate` call; falsy result is "not found". -/
def bulkUpdateOrderItem (req : Request) (db : DbCall → DbResult) :
    Response × List DbCall :=
  let filter := spreadIfObject (objGet req.body "filter")
  if isObjectNotNull (objGet req.body "data") then
    let data := bulkUpdateData req.user_id (spreadIfObject (objGet req.body "data"))
    let c := DbCall.bulkUpdate filter data
    (match db c with
     | .success result =>
       if !truthy result then .recordNotFound else .ok result
     | .thrown e => .failureResponse (some e.message), [c])
  else
    (.badRequest, [])

/-- Handler `deleteManyOrderItem`: guard the `ids` array, then one
`deleteMany` call; the result is returned as-is (no not-found check); any
caught error yields a BARE failure response. -/
def deleteManyOrderItem (req : Request) (db : DbCall → DbResult) :
    Response × List DbCall :=
  let ids := objGet req.body "ids"
  if idsCheckFails ids then
    (.badRequest, [])
  else
    let query := [("_id", Value.obj [("$in", Option.getD ids .null)])]
    let c := DbCall.deleteMany query
    (match db c with
     | .success result => .ok result
     | .thrown _ => .failureResponse none, [c])

/-- The `\x7b new: true \x7d` options object passed to every
`findOneAndUpdateDocument` call in this controller. -/
def newTrueOptions : List (String × Value) := [("new", Value.bool true)]

/-- Handler `softDeleteOrderItem`: flip `isDeleted` on the record with the
given id in one `findOneAndUpdateDocument` call; falsy result is "not
found"; any caught error yields a BARE failure response. -/
def softDeleteOrderItem (req : Request) (db : DbCall → DbResult) :
    Response × List DbCall :=
  let query := [("_id", Value.str req.params_id)]
  let updateBody := [("isDeleted", Value.bool true)]
  let c := DbCall.findOneAndUpdateDocument query updateBody newTrueOptions
  (match db c with
   | .success result =>
     if !truthy result then .recordNotFound else .ok result
   | .thrown _ => .failureResponse none, [c])

/-- The update object of `partialUpdateOrderItem`: after
`delete req.body.addedBy` and `delete req.body.updatedBy`,
`data = \x7b updatedBy: req.user.id, ...req.body \x7d`.  The spread comes
after `updatedBy`, but both audit keys were just deleted from the body, so
the caller identity survives. -/
def partialUpdateData (req : Request) : List (String × Value) :=
  ("updatedBy", req.user_id) :: objDelete (objDelete req.body "addedBy") "updatedBy"

/-- Handler `partialUpdateOrderItem`: strip audit fields, stamp
`updatedBy`, validate the resulting data, then one
`findOneAndUpdateDocument` call; falsy result is "not found"; caught
errors yield a failure response carrying the message. -/
def partialUpdateOrderItem (req : Request) (validateRequest : ValidateResult)
    (db : DbCall → DbResult) : Response × List DbCall :=
  let data := partialUpdateData req
  if !validateRequest.isValid then
    (.inValidParam ("Invalid values in parameters, " ++ validateRequest.message), [])
  else
    let query := [("_id", Value.str req.params_id)]
    let c := DbCall.findOneAndUpdateDocument query data newTrueOptions
    (match db c with
     | .success result =>
       if !truthy result then .recordNotFound else .ok result
     | .thrown e => .failureResponse (some e.message), [c])

/-- The update object of `updateOrderItem`, built exactly like
`partialUpdateData` (the source repeats the same three statements). -/
def updateOrderItemData (req : Request) : List (String × Value) :=
  ("updatedBy", req.user_id) :: objDelete (objDelete req.body "addedBy") "updatedBy"

/-- Handler `updateOrderItem`: strip audit fields, stamp `updatedBy`,
validate, then one `findOneAndUpdateDocument` call; falsy result is "not
found"; errors go through the standard catch block (validation /
duplicate / generic-with-message). -/
def updateOrderItem (req : Request) (validateRequest : ValidateResult)
    (db : DbCall → DbResult) : Response × List DbCall :=
  let data := updateOrderItemData req
  if !validateRequest.isValid then
    (.inValidParam ("Invalid values in parameters, " ++ validateRequest.message), [])
  else
    let query := [("_id", Value.str req.params_id)]
    let c := DbCall.findOneAndUpdateDocument query data newTrueOptions
    (match db c with
     | .success result =>
       if !truthy result then .recordNotFound else .ok result
     | .thrown e => catchStandard e, [c])

/-- Hexadecimal digit test for identifier characters. -/
def isHexChar (ch : Char) : Bool :=
  ch.isDigit || ('a' ≤ ch && ch ≤ 'f') || ('A' ≤ ch && ch ≤ 'F')

/-- Modelled from the spec: the external `ObjectID.isValid` check of the
document-store driver is not part of this repository; the spec describes
the identifier format as the 24-character identifier used by the document
store, i.e. 24 hexadecimal characters. -/
def objectIdIsValid (s : String) : Bool :=
  s.length == 24 && s.toList.all isHexChar

/-- Handler `getOrderItem`: reject a malformed id before any store access,
otherwise one `getSingleDocument` call; truthy result is returned,
otherwise "not found". -/
def getOrderItem (req : Request) (db : DbCall → DbResult) :
    Response × List DbCall :=
  if !objectIdIsValid req.params_id then
    (.invalidObjectId, [])
  else
    let query := [("_id", Value.str req.params_id)]
    let c := DbCall.getSingleDocument query []
    (match db c with
     | .success result =>
       if truthy result then .ok result else .recordNotFound
     | .thrown e => .failureResponse (some e.message), [c])

/-- Handler `deleteOrderItem`: one `findOneAndDeleteDocument` call; truthy
result is returned, otherwise "not found"; any caught error yields a BARE
failure response. -/
def deleteOrderItem (req : Request) (db : DbCall → DbResult) :
    Response × List DbCall :=
  let query := [("_id", Value.str req.params_id)]
  let c := DbCall.findOneAndDeleteDocument query
  (match db c with
   | .success result =>
     if truthy result then .ok result else .recordNotFound
   | .thrown _ => .failureResponse none, [c])

/-- Modelled from the spec: the store applies an update body field by
field (set semantics); fields of the matched record not named in the
update body are left unchanged.  Used only to express the frame part of
the soft-delete claims. -/
def applyUpdate (updateBody : List (String × Value)) (record : List (String × Value)) :
    List (String × Value) :=
  updateBody.foldl (fun r p => objSet r p.1 p.2) record

/-! Basic lemmas about object lookup, deletion, and appending. -/

theorem objGet_append (a b : List (String × Value)) (key : String) :
    objGet (a ++ b) key = (objGet b key).or (objGet a key) := by
  induction a with
  | nil =>
    cases h : objGet b key <;> simp [objGet, h, Option.or]
  | cons p rest ih =>
    cases h : objGet b key <;> cases h2 : objGet rest key <;>
      simp_all [objGet, Option.or]

theorem objGet_objDelete_self (fields : List (String × Value)) (k : String) :
    objGet (objDelete fields k) k = none := by
  induction fields with
  | nil => rfl
  | cons p rest ih =>
    rcases p with ⟨pk, v⟩
    by_cases h : pk = k
    · simp [objDelete, h, ih]
    · simp [objDelete, h, objGet, ih]

theorem objGet_objDelete_ne (fields : List (String × Value)) (k key : String)
    (h : key ≠ k) : objGet (objDelete fields k) key = objGet fields key := by
  induction fields with
  | nil => rfl
  | cons p rest ih =>
    rcases p with ⟨pk, v⟩
    by_cases hp : pk = k
    · subst hp
      have hk : ¬ pk = key := fun he => h he.symm
      rw [show objDelete ((pk, v) :: rest) pk = objDelete rest pk from by
        simp [objDelete]]
      rw [ih]
      cases h2 : objGet rest key <;> simp [objGet, h2, hk]
    · simp only [objDelete, hp, ite_false, if_neg]
      simp [objGet, ih]

theorem objGet_objSet_self (fields : List (String × Value)) (k : String) (v : Value) :
    objGet (objSet fields k v) k = some v := by
  simp [objSet, objGet_append, objGet, Option.or]

theorem objGet_objSet_ne (fields : List (String × Value)) (k key : String) (v : Value)
    (h : key ≠ k) : objGet (objSet fields k v) key = objGet fields key := by
  have hk : ¬ k = key := fun he => h he.symm
  simp [objSet, objGet_append, objGet, hk, Option.or]

/-! Lookups in the update payloads built by the three update handlers. -/

theorem partialUpdateData_updatedBy (req : Request) :
    objGet (partialUpdateData req) "updatedBy" = some req.user_id := by
  simp [partialUpdateData, objGet, objGet_objDelete_self]

theorem partialUpdateData_addedBy (req : Request) :
    objGet (partialUpdateData req) "addedBy" = none := by
  have h1 : objGet (objDelete (objDelete req.body "addedBy") "updatedBy") "addedBy" = none := by
    rw [objGet_objDelete_ne _ _ _ (by decide), objGet_objDelete_self]
  simp [partialUpdateData, objGet, h1]

theorem updateOrderItemData_updatedBy (req : Request) :
    objGet (updateOrderItemData req) "updatedBy" = some req.user_id := by
  simp [updateOrderItemData, objGet, objGet_objDelete_self]

theorem updateOrderItemData_addedBy (req : Request) :
    objGet (updateOrderItemData req) "addedBy" = none := by
  have h1 : objGet (objDelete (objDelete req.body "addedBy") "updatedBy") "addedBy" = none := by
    rw [objGet_objDelete_ne _ _ _ (by decide), objGet_objDelete_self]
  simp [updateOrderItemData, objGet, h1]

theorem bulkUpdateData_updatedBy (uid : Value) (d : List (String × Value)) :
    objGet (bulkUpdateData uid d) "updatedBy" = some uid := by
  simp [bulkUpdateData, objGet_objSet_self]

theorem bulkUpdateData_addedBy (uid : Value) (d : List (String × Value)) :
    objGet (bulkUpdateData uid d) "addedBy" = none := by
  rw [bulkUpdateData, objGet_objSet_ne _ _ _ _ (by decide),
    objGet_objDelete_ne _ _ _ (by decide), objGet_objDelete_self]

/-! Call logs of the update handlers when their pre-store checks pass. -/

theorem partialUpdateOrderItem_log (req : Request) (v : ValidateResult)
    (db : DbCall → DbResult) (h : v.isValid = true) :
    (partialUpdateOrderItem req v db).2 =
      [DbCall.findOneAndUpdateDocument [("_id", Value.str req.params_id)]
        (partialUpdateData req) newTrueOptions] := by
  simp [partialUpdateOrderItem, h]

theorem updateOrderItem_log (req : Request) (v : ValidateResult)
    (db : DbCall → DbResult) (h : v.isValid = true) :
    (updateOrderItem req v db).2 =
      [DbCall.findOneAndUpdateDocument [("_id", Value.str req.params_id)]
        (updateOrderItemData req) newTrueOptions] := by
  simp [updateOrderItem, h]

theorem bulkUpdateOrderItem_log (req : Request) (db : DbCall → DbResult)
    (h : isObjectNotNull (objGet req.body "data") = true) :
    (bulkUpdateOrderItem req db).2 =
      [DbCall.bulkUpdate (spreadIfObject (objGet req.body "filter"))
        (bulkUpdateData req.user_id (spreadIfObject (objGet req.body "data")))] := by
  simp [bulkUpdateOrderItem, h]

/-! Concrete sample inputs used by the witnesses below. -/

/-- A request whose body tries to smuggle both audit fields, and carries a
bulk-update payload, a bulk-ids list and a bulk-insert array. -/
def sampleReq : Request :=
  { body := [("addedBy", Value.str "attacker"), ("updatedBy", Value.str "attacker"),
             ("name", Value.str "Widget"),
             ("ids", Value.arr [Value.str "a", Value.str "b"]),
             ("data", Value.obj [("addedBy", Value.str "attacker"), ("qty", Value.num 2)]),
             ("filter", Value.obj [("name", Value.str "Widget")])]
    params_id := "aaaaaaaaaaaaaaaaaaaaaaaa"
    user_id := Value.str "u1" }

/-- A request carrying a bulk-insert array whose element tries to smuggle
`addedBy`. -/
def sampleBulkReq : Request :=
  { body := [("data", Value.arr [Value.obj [("name", Value.str "Widget"),
               ("addedBy", Value.str "attacker")]]),
             ("ids", Value.arr [Value.str "a"])]
    params_id := "aaaaaaaaaaaaaaaaaaaaaaaa"
    user_id := Value.str "u1" }

/-- A passing validation result. -/
def validOK : ValidateResult := { isValid := true, message := "" }

/-- A generic (non-validation, non-duplicate) error. -/
def genericErr : JsError := { name := "MongoError", code := some 1, message := "boom" }

/-- A store-level duplicate-key error. -/
def dupErr : JsError := { name := "MongoError", code := some 11000, message := "dup" }

/-- C1: for every update operation (`partialUpdateOrderItem`,
`updateOrderItem`, `bulkUpdateOrderItem`) and every client body, any
`addedBy` or `updatedBy` field of the client body is removed before the
data-access call: the only data-access call each handler can make passes
exactly the handler's update object, whose `updatedBy` is the caller's
identity `req.user.id` and which carries no `addedBy` binding at all. -/
theorem claim_C1_updates_strip_client_audit_fields (req : Request)
    (v : ValidateResult) (db : DbCall → DbResult)
    (hval : v.isValid = true)
    (hdata : isObjectNotNull (objGet req.body "data") = true) :
    ((partialUpdateOrderItem req v db).2 =
        [DbCall.findOneAndUpdateDocument [("_id", Value.str req.params_id)]
          (partialUpdateData req) newTrueOptions] ∧
      objGet (partialUpdateData req) "updatedBy" = some req.user_id ∧
      objGet (partialUpdateData req) "addedBy" = none) ∧
    ((updateOrderItem req v db).2 =
        [DbCall.findOneAndUpdateDocument [("_id", Value.str req.params_id)]
          (updateOrderItemData req) newTrueOptions] ∧
      objGet (updateOrderItemData req) "updatedBy" = some req.user_id ∧
      objGet (updateOrderItemData req) "addedBy" = none) ∧
    ((bulkUpdateOrderItem req db).2 =
        [DbCall.bulkUpdate (spreadIfObject (objGet req.body "filter"))
          (bulkUpdateData req.user_id (spreadIfObject (objGet req.body "data")))] ∧
      objGet (bulkUpdateData req.user_id
        (spreadIfObject (objGet req.body "data"))) "updatedBy" = some req.user_id ∧
      objGet (bulkUpdateData req.user_id
        (spreadIfObject (objGet req.body "data"))) "addedBy" = none) :=
  ⟨⟨partialUpdateOrderItem_log req v db hval, partialUpdateData_updatedBy req,
      partialUpdateData_addedBy req⟩,
    ⟨updateOrderItem_log req v db hval, updateOrderItemData_updatedBy req,
      updateOrderItemData_addedBy req⟩,
    ⟨bulkUpdateOrderItem_log req db hdata, bulkUpdateData_updatedBy _ _,
      bulkUpdateData_addedBy _ _⟩⟩

/-- Witness for C1 at a request that smuggles `addedBy`/`updatedBy`. -/
theorem claim_C1_witness :
    objGet (partialUpdateData sampleReq) "updatedBy" = some (Value.str "u1") ∧
    objGet (partialUpdateData sampleReq) "addedBy" = none ∧
    objGet (bulkUpdateData sampleReq.user_id
      (spreadIfObject (objGet sampleReq.body "data"))) "updatedBy" =
        some (Value.str "u1") :=
  ⟨(claim_C1_updates_strip_client_audit_fields sampleReq validOK dbNull rfl rfl).1.2.1,
   (claim_C1_updates_strip_client_audit_fields sampleReq validOK dbNull rfl rfl).1.2.2,
   (claim_C1_updates_strip_client_audit_fields sampleReq validOK dbNull rfl rfl).2.2.2.1⟩

/-- On a list without null elements the stamping loop completes and yields
each element as described by `stampedDoc`. -/
theorem stampLoop_ok_of_no_null (uid : Value) (elems : List Value)
    (h : ∀ x ∈ elems, x ≠ Value.null) :
    stampLoop uid elems = .ok (elems.map (stampedDoc uid)) := by
  induction elems with
  | nil => rfl
  | cons x rest ih =>
    have hx : x ≠ Value.null := h x (by simp)
    have hset : setAddedBy uid x = .ok (stampedDoc uid x) := by
      cases x with
      | null => exact absurd rfl hx
      | bool b => rfl
      | num n => rfl
      | str t => rfl
      | arr l => rfl
      | obj fields => rfl
    simp [stampLoop, hset, ih (fun y hy => h y (by simp [hy]))]

/-- C2: every create call passes a document whose `addedBy` is the caller's
identity, whatever the client body contained; bulk insert stamps every
(object) element of the submitted array. -/
theorem claim_C2_creates_stamp_addedBy (req : Request) (v : ValidateResult)
    (db : DbCall → DbResult) (elems : List Value)
    (hval : v.isValid = true)
    (huser : truthy req.user_id = true)
    (hdata : objGet req.body "data" = some (Value.arr elems))
    (hne : elems ≠ [])
    (hobj : ∀ x ∈ elems, ∃ fields, x = Value.obj fields) :
    (addOrderItem req v db).2 = [DbCall.createDocument (addData req)] ∧
    objGet (addData req) "addedBy" = some req.user_id ∧
    (bulkInsertOrderItem req db).2 =
      [DbCall.bulkInsert (elems.map (stampedDoc req.user_id))] ∧
    ∀ doc ∈ elems.map (stampedDoc req.user_id),
      getProp doc "addedBy" = some req.user_id := by
  have hstamp : stampLoop req.user_id elems = .ok (elems.map (stampedDoc req.user_id)) := by
    refine stampLoop_ok_of_no_null _ _ ?_
    intro x hx hnull
    rcases hobj x hx with ⟨fields, hf⟩
    rw [hnull] at hf
    exact Value.noConfusion hf
  refine ⟨by simp [addOrderItem, hval], objGet_objSet_self req.body "addedBy" req.user_id,
    ?_, ?_⟩
  · have hlen : ¬ (elems.length < 1) := by
      have := List.length_pos.mpr hne
      omega
    simp [bulkInsertOrderItem, hdata, hlen, huser, hstamp]
  · intro doc hdoc
    rcases List.mem_map.mp hdoc with ⟨x, hx, rfl⟩
    rcases hobj x hx with ⟨fields, rfl⟩
    simpa [stampedDoc, getProp] using objGet_objSet_self fields "addedBy" req.user_id

/-- Witness for C2 at a bulk-insert body whose element smuggles `addedBy`. -/
theorem claim_C2_witness :
    objGet (addData sampleBulkReq) "addedBy" = some (Value.str "u1") ∧
    ∀ doc ∈ [Value.obj [("name", Value.str "Widget"),
        ("addedBy", Value.str "attacker")]].map (stampedDoc (Value.str "u1")),
      getProp doc "addedBy" = some (Value.str "u1") :=
  ⟨(claim_C2_creates_stamp_addedBy sampleBulkReq validOK dbNull
      [Value.obj [("name", Value.str "Widget"), ("addedBy", Value.str "attacker")]]
      rfl rfl rfl (by simp)
      (by intro x hx; rw [List.mem_singleton] at hx; exact ⟨_, hx⟩)).2.1,
   (claim_C2_creates_stamp_addedBy sampleBulkReq validOK dbNull
      [Value.obj [("name", Value.str "Widget"), ("addedBy", Value.str "attacker")]]
      rfl rfl rfl (by simp)
      (by intro x hx; rw [List.mem_singleton] at hx; exact ⟨_, hx⟩)).2.2.2⟩

/-- C3 as stated is false: it allows a bare (message-suppressed) failure
only in `deleteOrderItem` and `softDeleteManyOrderItem`, yet
`deleteManyOrderItem` — one of the operations the claim asserts carries the
message — also returns the failure response bare when a generic error is
caught. -/
theorem claim_C3_counterexample :
    (deleteManyOrderItem
        { body := [("ids", Value.arr [Value.str "a"])],
          params_id := "x", user_id := Value.str "u1" }
        (dbThrow { name := "Error", code := none, message := "boom" })).1 =
      Response.failureResponse none ∧
    Response.failureResponse (none : Option String) ≠
      Response.failureResponse (some "boom") := by
  constructor
  · rfl
  · simp

/-- C3 amended: a caught exception that is neither a validation error nor a
duplicate-key condition produces the generic failure response carrying the
error message in every operation except the FOUR operations
`softDeleteManyOrderItem`, `deleteManyOrderItem`, `softDeleteOrderItem` and
`deleteOrderItem`, which return the failure response bare. -/
theorem claim_C3_amended_failure_message_suppressed_in_four (req : Request)
    (v : ValidateResult) (e : JsError)
    (hval : v.isValid = true)
    (hname : e.name ≠ "ValidationError")
    (hdup : isDuplicateErr e = false)
    (hids : idsCheckFails (objGet req.body "ids") = false)
    (helems : ∃ elems, objGet req.body "data" = some (Value.arr elems) ∧
      elems ≠ [] ∧ ∀ x ∈ elems, x ≠ Value.null)
    (hid : objectIdIsValid req.params_id = true) :
    (addOrderItem req v (dbThrow e)).1 = .failureResponse (some e.message) ∧
    (findAllOrderItem req v (dbThrow e)).1 = .failureResponse (some e.message) ∧
    (getOrderItemCount req v (dbThrow e)).1 = .failureResponse (some e.message) ∧
    (softDeleteManyOrderItem req (dbThrow e)).1 = .failureResponse none ∧
    (bulkInsertOrderItem req (dbThrow e)).1 = .failureResponse (some e.message) ∧
    (bulkUpdateOrderItem req (dbThrow e)).1 = .failureResponse (some e.message) ∧
    (deleteManyOrderItem req (dbThrow e)).1 = .failureResponse none ∧
    (softDeleteOrderItem req (dbThrow e)).1 = .failureResponse none ∧
    (partialUpdateOrderItem req v (dbThrow e)).1 = .failureResponse (some e.message) ∧
    (updateOrderItem req v (dbThrow e)).1 = .failureResponse (some e.message) ∧
    (getOrderItem req (dbThrow e)).1 = .failureResponse (some e.message) ∧
    (deleteOrderItem req (dbThrow e)).1 = .failureResponse none := by
  rcases helems with ⟨elems, hdata, hne, hnn⟩
  have hlen : ¬ (elems.length < 1) := by
    have := List.length_pos.mpr hne
    omega
  have hstamp := stampLoop_ok_of_no_null req.user_id elems hnn
  have hcatch : catchStandard e = .failureResponse (some e.message) := by
    simp [catchStandard, hname, hdup]
  refine ⟨?_, ?_, ?_, ?_, ?_, ?_, ?_, ?_, ?_, ?_, ?_, ?_⟩
  · simp [addOrderItem, hval, dbThrow, hcatch]
  · cases hc : truthyOpt (objGet req.body "isCountOnly") <;>
      simp [findAllOrderItem, hval, hc, dbThrow]
  · simp [getOrderItemCount, hval, dbThrow]
  · simp [softDeleteManyOrderItem, hids, dbThrow]
  · cases hu : truthy req.user_id <;>
      simp [bulkInsertOrderItem, hdata, hlen, hu, hstamp, dbThrow, hcatch]
  · simp [bulkUpdateOrderItem, hdata, isObjectNotNull, dbThrow]
  · simp [deleteManyOrderItem, hids, dbThrow]
  · simp [softDeleteOrderItem, dbThrow]
  · simp [partialUpdateOrderItem, hval, dbThrow]
  · simp [updateOrderItem, hval, dbThrow, hcatch]
  · simp [getOrderItem, hid, dbThrow]
  · simp [deleteOrderItem, dbThrow]

/-- Witness for the amended C3: a generic error surfaces with its message
in `updateOrderItem` but bare in `deleteManyOrderItem`. -/
theorem claim_C3_amended_witness :
    (updateOrderItem sampleBulkReq validOK (dbThrow genericErr)).1 =
      Response.failureResponse (some "boom") ∧
    (deleteManyOrderItem sampleBulkReq (dbThrow genericErr)).1 =
      Response.failureResponse none :=
  ⟨(claim_C3_amended_failure_message_suppressed_in_four sampleBulkReq validOK genericErr
      rfl (by simp [genericErr]) rfl rfl
      ⟨[Value.obj [("name", Value.str "Widget"), ("addedBy", Value.str "attacker")]], by
        refine ⟨rfl, by simp, ?_⟩
        intro x hx
        rw [List.mem_singleton] at hx
        subst hx
        exact fun h => Value.noConfusion h⟩ rfl).2.2.2.2.2.2.2.2.2.1,
   (claim_C3_amended_failure_message_suppressed_in_four sampleBulkReq validOK genericErr
      rfl (by simp [genericErr]) rfl rfl
      ⟨[Value.obj [("name", Value.str "Widget"), ("addedBy", Value.str "attacker")]], by
        refine ⟨rfl, by simp, ?_⟩
        intro x hx
        rw [List.mem_singleton] at hx
        subst hx
        exact fun h => Value.noConfusion h⟩ rfl).2.2.2.2.2.2.1⟩

/-- A non-array `ids` value fails the shared bulk-ids guard. -/
theorem idsCheckFails_of_not_array (x : Option Value) (h : isArrayOpt x = false) :
    idsCheckFails x = true := by
  simp [idsCheckFails, h]

/-- C4: for both bulk-by-ids operations, an `ids` field that is absent, not
an array, or an empty array yields the bad-request response with an empty
data-access call log. -/
theorem claim_C4_bulk_ids_guard (req : Request) (db : DbCall → DbResult)
    (h : objGet req.body "ids" = none ∨
      (∀ l, objGet req.body "ids" ≠ some (Value.arr l)) ∨
      objGet req.body "ids" = some (Value.arr [])) :
    softDeleteManyOrderItem req db = (Response.badRequest, []) ∧
    deleteManyOrderItem req db = (Response.badRequest, []) := by
  have hfail : idsCheckFails (objGet req.body "ids") = true := by
    rcases h with h | h | h
    · simp [idsCheckFails, h, truthyOpt]
    · cases hv : objGet req.body "ids" with
      | none => simp [idsCheckFails, truthyOpt]
      | some v =>
        cases v with
        | arr l => exact absurd hv (h l)
        | _ => exact idsCheckFails_of_not_array _ rfl
    · simp [idsCheckFails, h, truthyOpt, truthy, isArrayOpt, idsLen]
  constructor
  · simp [softDeleteManyOrderItem, hfail]
  · simp [deleteManyOrderItem, hfail]

/-- Witness for C4 at a body whose `ids` is the empty array. -/
theorem claim_C4_witness :
    softDeleteManyOrderItem
        { body := [("ids", Value.arr [])], params_id := "x", user_id := Value.str "u1" }
        dbNull = (Response.badRequest, []) ∧
    deleteManyOrderItem
        { body := [("ids", Value.arr [])], params_id := "x", user_id := Value.str "u1" }
        dbNull = (Response.badRequest, []) :=
  claim_C4_bulk_ids_guard _ dbNull (Or.inr (Or.inr rfl))

/-- C5: a store-level duplicate-key failure (error code 11000; a store
uniqueness violation, so not named `ValidationError`) raised by the
data-access call of create, bulk insert, or full update surfaces as the
dedicated duplicate response. -/
theorem claim_C5_duplicate_key_response (req : Request) (v : ValidateResult)
    (e : JsError)
    (hval : v.isValid = true)
    (hcode : e.code = some 11000)
    (hname : e.name ≠ "ValidationError")
    (helems : ∃ elems, objGet req.body "data" = some (Value.arr elems) ∧
      elems ≠ [] ∧ ∀ x ∈ elems, x ≠ Value.null) :
    (addOrderItem req v (dbThrow e)).1 = Response.isDuplicate ∧
    (bulkInsertOrderItem req (dbThrow e)).1 = Response.isDuplicate ∧
    (updateOrderItem req v (dbThrow e)).1 = Response.isDuplicate := by
  rcases helems with ⟨elems, hdata, hne, hnn⟩
  have hlen : ¬ (elems.length < 1) := by
    have := List.length_pos.mpr hne
    omega
  have hstamp := stampLoop_ok_of_no_null req.user_id elems hnn
  have hdup : isDuplicateErr e = true := by
    simp [isDuplicateErr, hcode]
  have hcatch : catchStandard e = .isDuplicate := by
    simp [catchStandard, hname, hdup]
  refine ⟨?_, ?_, ?_⟩
  · simp [addOrderItem, hval, dbThrow, hcatch]
  · cases hu : truthy req.user_id <;>
      simp [bulkInsertOrderItem, hdata, hlen, hu, hstamp, dbThrow, hcatch]
  · simp [updateOrderItem, hval, dbThrow, hcatch]

/-- Witness for C5 with a concrete 11000-coded error. -/
theorem claim_C5_witness :
    (addOrderItem sampleBulkReq validOK (dbThrow dupErr)).1 = Response.isDuplicate ∧
    (bulkInsertOrderItem sampleBulkReq (dbThrow dupErr)).1 = Response.isDuplicate :=
  ⟨(claim_C5_duplicate_key_response sampleBulkReq validOK dupErr rfl rfl
      (by simp [dupErr])
      ⟨[Value.obj [("name", Value.str "Widget"), ("addedBy", Value.str "attacker")]],
        rfl, by simp, by
          intro x hx
          rw [List.mem_singleton] at hx
          subst hx
          exact fun h => Value.noConfusion h⟩).1,
   (claim_C5_duplicate_key_response sampleBulkReq validOK dupErr rfl rfl
      (by simp [dupErr])
      ⟨[Value.obj [("name", Value.str "Widget"), ("addedBy", Value.str "attacker")]],
        rfl, by simp, by
          intro x hx
          rw [List.mem_singleton] at hx
          subst hx
          exact fun h => Value.noConfusion h⟩).2.1⟩

/-- C6: `getOrderItem` rejects a malformed identifier with the invalid-id
response and an empty call log; with a well-formed identifier it issues
exactly one `getSingleDocument` query and maps a truthy result to `ok` and
a falsy (no-match) result to `recordNotFound`. -/
theorem claim_C6_get_validates_id (req : Request) (db : DbCall → DbResult) :
    (objectIdIsValid req.params_id = false →
      getOrderItem req db = (Response.invalidObjectId, [])) ∧
    (objectIdIsValid req.params_id = true →
      (getOrderItem req db).2 =
        [DbCall.getSingleDocument [("_id", Value.str req.params_id)] []] ∧
      ∀ result,
        db (DbCall.getSingleDocument [("_id", Value.str req.params_id)] []) =
          .success result →
        (truthy result = true → (getOrderItem req db).1 = .ok result) ∧
        (truthy result = false → (getOrderItem req db).1 = .recordNotFound)) := by
  constructor
  · intro h
    simp [getOrderItem, h]
  · intro h
    refine ⟨by simp [getOrderItem, h], ?_⟩
    intro result hdb
    constructor <;> intro ht <;> simp [getOrderItem, h, hdb, ht]

/-- Witness for C6: a malformed id is rejected without a query; a valid id
fetches the record. -/
theorem claim_C6_witness :
    getOrderItem
        { body := [], params_id := "nope", user_id := Value.str "u1" } dbNull =
      (Response.invalidObjectId, []) ∧
    (getOrderItem
        { body := [], params_id := "aaaaaaaaaaaaaaaaaaaaaaaa", user_id := Value.str "u1" }
        (fun _ => .success (Value.obj [("name", Value.str "Widget")]))).1 =
      Response.ok (Value.obj [("name", Value.str "Widget")]) :=
  ⟨(claim_C6_get_validates_id
      { body := [], params_id := "nope", user_id := Value.str "u1" } dbNull).1 rfl,
   (((claim_C6_get_validates_id
      { body := [], params_id := "aaaaaaaaaaaaaaaaaaaaaaaa", user_id := Value.str "u1" }
      (fun _ => .success (Value.obj [("name", Value.str "Widget")]))).2 rfl).2
      (Value.obj [("name", Value.str "Widget")]) rfl).1 rfl⟩

/-- C7: whenever the data-access call of a single-record mutation by id, of
bulk update, or of soft-delete-many resolves to the null no-match sentinel,
the handler returns the not-found response (a normal outcome, not a
failure). -/
theorem claim_C7_null_result_not_found (req : Request) (v : ValidateResult)
    (hval : v.isValid = true)
    (hdata : isObjectNotNull (objGet req.body "data") = true)
    (hids : idsCheckFails (objGet req.body "ids") = false) :
    (softDeleteOrderItem req dbNull).1 = Response.recordNotFound ∧
    (partialUpdateOrderItem req v dbNull).1 = Response.recordNotFound ∧
    (updateOrderItem req v dbNull).1 = Response.recordNotFound ∧
    (deleteOrderItem req dbNull).1 = Response.recordNotFound ∧
    (bulkUpdateOrderItem req dbNull).1 = Response.recordNotFound ∧
    (softDeleteManyOrderItem req dbNull).1 = Response.recordNotFound := by
  refine ⟨?_, ?_, ?_, ?_, ?_, ?_⟩
  · simp [softDeleteOrderItem, dbNull, truthy]
  · simp [partialUpdateOrderItem, hval, dbNull, truthy]
  · simp [updateOrderItem, hval, dbNull, truthy]
  · simp [deleteOrderItem, dbNull, truthy]
  · simp [bulkUpdateOrderItem, hdata, dbNull, truthy]
  · simp [softDeleteManyOrderItem, hids, dbNull, truthy]

/-- Witness for C7: deleting a non-existent id reports "not found". -/
theorem claim_C7_witness :
    (softDeleteOrderItem sampleReq dbNull).1 = Response.recordNotFound ∧
    (softDeleteManyOrderItem sampleReq dbNull).1 = Response.recordNotFound :=
  ⟨(claim_C7_null_result_not_found sampleReq validOK rfl rfl rfl).1,
   (claim_C7_null_result_not_found sampleReq validOK rfl rfl rfl).2.2.2.2.2⟩

/-- C8: with a passing filter validation and a truthy `isCountOnly` flag,
`findAllOrderItem` issues exactly the count call (in particular it never
calls `getAllDocuments`) and returns ok with the count wrapped as
`totalRecords`. -/
theorem claim_C8_count_only_skips_fetch (req : Request) (v : ValidateResult)
    (db : DbCall → DbResult) (n : Value)
    (hval : v.isValid = true)
    (hcount : truthyOpt (objGet req.body "isCountOnly") = true)
    (hdb : db (DbCall.countDocument (findAllQuery req)) = .success n) :
    findAllOrderItem req v db =
      (Response.ok (Value.obj [("totalRecords", n)]),
        [DbCall.countDocument (findAllQuery req)]) := by
  simp [findAllOrderItem, hval, hcount, hdb]

/-- Witness for C8 at a count-only body. -/
theorem claim_C8_witness :
    findAllOrderItem
        { body := [("query", Value.obj [("status", Value.str "open")]),
                   ("isCountOnly", Value.bool true)],
          params_id := "x", user_id := Value.str "u1" }
        validOK (fun _ => .success (Value.num 7)) =
      (Response.ok (Value.obj [("totalRecords", Value.num 7)]),
        [DbCall.countDocument [("status", Value.str "open")]]) :=
  claim_C8_count_only_skips_fetch _ validOK _ (Value.num 7) rfl rfl rfl

/-- Responses produced before any store access: bad request, invalid
parameter, invalid object id. -/
def isPreStoreRejection : Response → Bool
  | .badRequest => true
  | .inValidParam _ => true
  | .invalidObjectId => true
  | _ => false

/-- The standard catch block never produces a pre-store rejection. -/
theorem isPreStoreRejection_catchStandard (e : JsError) :
    isPreStoreRejection (catchStandard e) = false := by
  unfold catchStandard
  split_ifs <;> rfl

/-- Call-count behaviour of `addOrderItem`. -/
theorem addOrderItem_calls (req : Request) (v : ValidateResult)
    (db : DbCall → DbResult) :
    (addOrderItem req v db).2.length ≤ 1 ∧
      ((addOrderItem req v db).2 = [] ↔
        isPreStoreRejection (addOrderItem req v db).1 = true) := by
  cases hv : v.isValid
  · simp [addOrderItem, hv, isPreStoreRejection]
  · cases hdb : db (DbCall.createDocument (addData req)) with
    | success r => simp [addOrderItem, hv, hdb, isPreStoreRejection]
    | thrown e => simp [addOrderItem, hv, hdb, isPreStoreRejection_catchStandard]

/-- Call-count behaviour of `findAllOrderItem`. -/
theorem findAllOrderItem_calls (req : Request) (v : ValidateResult)
    (db : DbCall → DbResult) :
    (findAllOrderItem req v db).2.length ≤ 1 ∧
      ((findAllOrderItem req v db).2 = [] ↔
        isPreStoreRejection (findAllOrderItem req v db).1 = true) := by
  cases hv : v.isValid
  · simp [findAllOrderItem, hv, isPreStoreRejection]
  · cases hc : truthyOpt (objGet req.body "isCountOnly")
    · cases hdb : db (DbCall.getAllDocuments (findAllQuery req)
          (spreadIfObject (objGet req.body "options"))) with
      | success r =>
        cases hr : resultHasData r <;>
          simp [findAllOrderItem, hv, hc, hdb, hr, isPreStoreRejection]
      | thrown e => simp [findAllOrderItem, hv, hc, hdb, isPreStoreRejection]
    · cases hdb : db (DbCall.countDocument (findAllQuery req)) with
      | success r => simp [findAllOrderItem, hv, hc, hdb, isPreStoreRejection]
      | thrown e => simp [findAllOrderItem, hv, hc, hdb, isPreStoreRejection]

/-- Call-count behaviour of `getOrderItemCount`. -/
theorem getOrderItemCount_calls (req : Request) (v : ValidateResult)
    (db : DbCall → DbResult) :
    (getOrderItemCount req v db).2.length ≤ 1 ∧
      ((getOrderItemCount req v db).2 = [] ↔
        isPreStoreRejection (getOrderItemCount req v db).1 = true) := by
  cases hv : v.isValid
  · simp [getOrderItemCount, hv, isPreStoreRejection]
  · cases hdb : db (DbCall.countDocument (spreadIfObject (objGet req.body "where"))) with
    | success r => simp [getOrderItemCount, hv, hdb, isPreStoreRejection]
    | thrown e => simp [getOrderItemCount, hv, hdb, isPreStoreRejection]

/-- Call-count behaviour of `softDeleteManyOrderItem`. -/
theorem softDeleteManyOrderItem_calls (req : Request) (db : DbCall → DbResult) :
    (softDeleteManyOrderItem req db).2.length ≤ 1 ∧
      ((softDeleteManyOrderItem req db).2 = [] ↔
        isPreStoreRejection (softDeleteManyOrderItem req db).1 = true) := by
  cases hids : idsCheckFails (objGet req.body "ids")
  · cases hdb : db (DbCall.bulkUpdate
        [("_id", Value.obj [("$in", Option.getD (objGet req.body "ids") .null)])]
        [("isDeleted", Value.bool true)]) with
    | success d =>
      cases ht : truthy d <;>
        simp [softDeleteManyOrderItem, hids, hdb, ht, isPreStoreRejection]
    | thrown e => simp [softDeleteManyOrderItem, hids, hdb, isPreStoreRejection]
  · simp [softDeleteManyOrderItem, hids, isPreStoreRejection]

/-- Call-count behaviour of `bulkInsertOrderItem`: the log is also empty
when the `addedBy` stamping loop throws, with a generic failure (not a
pre-store rejection) as the response. -/
theorem bulkInsertOrderItem_calls (req : Request) (db : DbCall → DbResult) :
    (bulkInsertOrderItem req db).2.length ≤ 1 ∧
      ((bulkInsertOrderItem req db).2 = [] ↔
        (isPreStoreRejection (bulkInsertOrderItem req db).1 = true ∨
          (truthy req.user_id = true ∧
            ∃ e, stampLoop req.user_id (bulkInsertElems req) = .error e))) := by
  cases hd : objGet req.body "data" with
  | none => simp [bulkInsertOrderItem, hd, isPreStoreRejection, bulkInsertElems]
  | some v =>
    cases v with
    | arr elems =>
      by_cases hlen : elems.length < 1
      · simp [bulkInsertOrderItem, hd, hlen, isPreStoreRejection]
      · cases hu : truthy req.user_id
        · cases hdb : db (DbCall.bulkInsert elems) with
          | success r =>
            simp [bulkInsertOrderItem, hd, hlen, hu, hdb, isPreStoreRejection]
          | thrown e =>
            simp [bulkInsertOrderItem, hd, hlen, hu, hdb, isPreStoreRejection_catchStandard]
        · cases hs : stampLoop req.user_id elems with
          | error e =>
            simp [bulkInsertOrderItem, hd, hlen, hu, hs, bulkInsertElems,
              isPreStoreRejection_catchStandard]
          | ok l =>
            cases hdb : db (DbCall.bulkInsert l) with
            | success r =>
              simp [bulkInsertOrderItem, hd, hlen, hu, hs, hdb, bulkInsertElems,
                isPreStoreRejection]
            | thrown e =>
              simp [bulkInsertOrderItem, hd, hlen, hu, hs, hdb, bulkInsertElems,
                isPreStoreRejection_catchStandard]
    | null => simp [bulkInsertOrderItem, hd, isPreStoreRejection, bulkInsertElems]
    | bool b => simp [bulkInsertOrderItem, hd, isPreStoreRejection, bulkInsertElems]
    | num n => simp [bulkInsertOrderItem, hd, isPreStoreRejection, bulkInsertElems]
    | str s => simp [bulkInsertOrderItem, hd, isPreStoreRejection, bulkInsertElems]
    | obj fields => simp [bulkInsertOrderItem, hd, isPreStoreRejection, bulkInsertElems]

/-- Call-count behaviour of `bulkUpdateOrderItem`. -/
theorem bulkUpdateOrderItem_calls (req : Request) (db : DbCall → DbResult) :
    (bulkUpdateOrderItem req db).2.length ≤ 1 ∧
      ((bulkUpdateOrderItem req db).2 = [] ↔
        isPreStoreRejection (bulkUpdateOrderItem req db).1 = true) := by
  cases hd : isObjectNotNull (objGet req.body "data")
  · simp [bulkUpdateOrderItem, hd, isPreStoreRejection]
  · cases hdb : db (DbCall.bulkUpdate (spreadIfObject (objGet req.body "filter"))
        (bulkUpdateData req.user_id (spreadIfObject (objGet req.body "data")))) with
    | success r =>
      cases ht : truthy r <;>
        simp [bulkUpdateOrderItem, hd, hdb, ht, isPreStoreRejection]
    | thrown e => simp [bulkUpdateOrderItem, hd, hdb, isPreStoreRejection]

/-- Call-count behaviour of `deleteManyOrderItem`. -/
theorem deleteManyOrderItem_calls (req : Request) (db : DbCall → DbResult) :
    (deleteManyOrderItem req db).2.length ≤ 1 ∧
      ((deleteManyOrderItem req db).2 = [] ↔
        isPreStoreRejection (deleteManyOrderItem req db).1 = true) := by
  cases hids : idsCheckFails (objGet req.body "ids")
  · cases hdb : db (DbCall.deleteMany
        [("_id", Value.obj [("$in", Option.getD (objGet req.body "ids") .null)])]) with
    | success r => simp [deleteManyOrderItem, hids, hdb, isPreStoreRejection]
    | thrown e => simp [deleteManyOrderItem, hids, hdb, isPreStoreRejection]
  · simp [deleteManyOrderItem, hids, isPreStoreRejection]

/-- Call-count behaviour of `softDeleteOrderItem`. -/
theorem softDeleteOrderItem_calls (req : Request) (db : DbCall → DbResult) :
    (softDeleteOrderItem req db).2.length ≤ 1 ∧
      ((softDeleteOrderItem req db).2 = [] ↔
        isPreStoreRejection (softDeleteOrderItem req db).1 = true) := by
  cases hdb : db (DbCall.findOneAndUpdateDocument [("_id", Value.str req.params_id)]
      [("isDeleted", Value.bool true)] newTrueOptions) with
  | success r =>
    cases ht : truthy r <;>
      simp [softDeleteOrderItem, hdb, ht, isPreStoreRejection]
  | thrown e => simp [softDeleteOrderItem, hdb, isPreStoreRejection]

/-- Call-count behaviour of `partialUpdateOrderItem`. -/
theorem partialUpdateOrderItem_calls (req : Request) (v : ValidateResult)
    (db : DbCall → DbResult) :
    (partialUpdateOrderItem req v db).2.length ≤ 1 ∧
      ((partialUpdateOrderItem req v db).2 = [] ↔
        isPreStoreRejection (partialUpdateOrderItem req v db).1 = true) := by
  cases hv : v.isValid
  · simp [partialUpdateOrderItem, hv, isPreStoreRejection]
  · cases hdb : db (DbCall.findOneAndUpdateDocument [("_id", Value.str req.params_id)]
        (partialUpdateData req) newTrueOptions) with
    | success r =>
      cases ht : truthy r <;>
        simp [partialUpdateOrderItem, hv, hdb, ht, isPreStoreRejection]
    | thrown e => simp [partialUpdateOrderItem, hv, hdb, isPreStoreRejection]

/-- Call-count behaviour of `updateOrderItem`. -/
theorem updateOrderItem_calls (req : Request) (v : ValidateResult)
    (db : DbCall → DbResult) :
    (updateOrderItem req v db).2.length ≤ 1 ∧
      ((updateOrderItem req v db).2 = [] ↔
        isPreStoreRejection (updateOrderItem req v db).1 = true) := by
  cases hv : v.isValid
  · simp [updateOrderItem, hv, isPreStoreRejection]
  · cases hdb : db (DbCall.findOneAndUpdateDocument [("_id", Value.str req.params_id)]
        (updateOrderItemData req) newTrueOptions) with
    | success r =>
      cases ht : truthy r <;>
        simp [updateOrderItem, hv, hdb, ht, isPreStoreRejection]
    | thrown e => simp [updateOrderItem, hv, hdb, isPreStoreRejection_catchStandard]

/-- Call-count behaviour of `getOrderItem`. -/
theorem getOrderItem_calls (req : Request) (db : DbCall → DbResult) :
    (getOrderItem req db).2.length ≤ 1 ∧
      ((getOrderItem req db).2 = [] ↔
        isPreStoreRejection (getOrderItem req db).1 = true) := by
  cases hid : objectIdIsValid req.params_id
  · simp [getOrderItem, hid, isPreStoreRejection]
  · cases hdb : db (DbCall.getSingleDocument [("_id", Value.str req.params_id)] []) with
    | success r =>
      cases ht : truthy r <;> simp [getOrderItem, hid, hdb, ht, isPreStoreRejection]
    | thrown e => simp [getOrderItem, hid, hdb, isPreStoreRejection]

/-- Call-count behaviour of `deleteOrderItem`. -/
theorem deleteOrderItem_calls (req : Request) (db : DbCall → DbResult) :
    (deleteOrderItem req db).2.length ≤ 1 ∧
      ((deleteOrderItem req db).2 = [] ↔
        isPreStoreRejection (deleteOrderItem req db).1 = true) := by
  cases hdb : db (DbCall.findOneAndDeleteDocument [("_id", Value.str req.params_id)]) with
  | success r =>
    cases ht : truthy r <;> simp [deleteOrderItem, hdb, ht, isPreStoreRejection]
  | thrown e => simp [deleteOrderItem, hdb, isPreStoreRejection]

/-- C9 as stated is false: with body `{ data: [null] }` and a truthy
caller identity, `bulkInsertOrderItem` passes its pre-store checks (`data`
is a non-empty array) yet makes ZERO data-access calls, because the
`addedBy` stamping loop throws a TypeError first; the handler answers with
a generic failure carrying the TypeError message, which is none of the
bad-request / invalid-parameter / invalid-id responses the claim allows
for a zero-call execution. -/
theorem claim_C9_counterexample :
    (bulkInsertOrderItem
        { body := [("data", Value.arr [Value.null])], params_id := "x",
          user_id := Value.str "u1" } dbNull).2 = [] ∧
    isPreStoreRejection
      (bulkInsertOrderItem
        { body := [("data", Value.arr [Value.null])], params_id := "x",
          user_id := Value.str "u1" } dbNull).1 = false ∧
    (bulkInsertOrderItem
        { body := [("data", Value.arr [Value.null])], params_id := "x",
          user_id := Value.str "u1" } dbNull).1 =
      Response.failureResponse (some typeErrorSetNull.message) :=
  ⟨rfl, rfl, rfl⟩

/-- C9 amended: every handler issues at most one data-access call on any
request, and its call log is empty exactly when it answers with a
pre-store rejection (bad request, invalid parameter, or invalid id) —
except `bulkInsertOrderItem`, which also makes zero calls when its
`addedBy` stamping loop throws (a null element of `data` with a truthy
caller identity), answering with a generic failure instead; in every other
circumstance where validation and the pre-store checks pass, exactly one
call is made, and no execution ever issues two. -/
theorem claim_C9_at_most_one_store_call (req : Request) (v : ValidateResult)
    (db : DbCall → DbResult) :
    ((addOrderItem req v db).2.length ≤ 1 ∧
      ((addOrderItem req v db).2 = [] ↔
        isPreStoreRejection (addOrderItem req v db).1 = true)) ∧
    ((findAllOrderItem req v db).2.length ≤ 1 ∧
      ((findAllOrderItem req v db).2 = [] ↔
        isPreStoreRejection (findAllOrderItem req v db).1 = true)) ∧
    ((getOrderItemCount req v db).2.length ≤ 1 ∧
      ((getOrderItemCount req v db).2 = [] ↔
        isPreStoreRejection (getOrderItemCount req v db).1 = true)) ∧
    ((softDeleteManyOrderItem req db).2.length ≤ 1 ∧
      ((softDeleteManyOrderItem req db).2 = [] ↔
        isPreStoreRejection (softDeleteManyOrderItem req db).1 = true)) ∧
    ((bulkInsertOrderItem req db).2.length ≤ 1 ∧
      ((bulkInsertOrderItem req db).2 = [] ↔
        (isPreStoreRejection (bulkInsertOrderItem req db).1 = true ∨
          (truthy req.user_id = true ∧
            ∃ e, stampLoop req.user_id (bulkInsertElems req) = .error e)))) ∧
    ((bulkUpdateOrderItem req db).2.length ≤ 1 ∧
      ((bulkUpdateOrderItem req db).2 = [] ↔
        isPreStoreRejection (bulkUpdateOrderItem req db).1 = true)) ∧
    ((deleteManyOrderItem req db).2.length ≤ 1 ∧
      ((deleteManyOrderItem req db).2 = [] ↔
        isPreStoreRejection (deleteManyOrderItem req db).1 = true)) ∧
    ((softDeleteOrderItem req db).2.length ≤ 1 ∧
      ((softDeleteOrderItem req db).2 = [] ↔
        isPreStoreRejection (softDeleteOrderItem req db).1 = true)) ∧
    ((partialUpdateOrderItem req v db).2.length ≤ 1 ∧
      ((partialUpdateOrderItem req v db).2 = [] ↔
        isPreStoreRejection (partialUpdateOrderItem req v db).1 = true)) ∧
    ((updateOrderItem req v db).2.length ≤ 1 ∧
      ((updateOrderItem req v db).2 = [] ↔
        isPreStoreRejection (updateOrderItem req v db).1 = true)) ∧
    ((getOrderItem req db).2.length ≤ 1 ∧
      ((getOrderItem req db).2 = [] ↔
        isPreStoreRejection (getOrderItem req db).1 = true)) ∧
    ((deleteOrderItem req db).2.length ≤ 1 ∧
      ((deleteOrderItem req db).2 = [] ↔
        isPreStoreRejection (deleteOrderItem req db).1 = true)) :=
  ⟨addOrderItem_calls req v db, findAllOrderItem_calls req v db,
    getOrderItemCount_calls req v db, softDeleteManyOrderItem_calls req db,
    bulkInsertOrderItem_calls req db, bulkUpdateOrderItem_calls req db,
    deleteManyOrderItem_calls req db, softDeleteOrderItem_calls req db,
    partialUpdateOrderItem_calls req v db, updateOrderItem_calls req v db,
    getOrderItem_calls req db, deleteOrderItem_calls req db⟩

/-- Witness for C9 at a concrete request and store. -/
theorem claim_C9_witness :
    (addOrderItem sampleReq validOK dbNull).2.length ≤ 1 ∧
    ((getOrderItem sampleReq dbNull).2 = [] ↔
      isPreStoreRejection (getOrderItem sampleReq dbNull).1 = true) :=
  ⟨(claim_C9_at_most_one_store_call sampleReq validOK dbNull).1.1,
   (claim_C9_at_most_one_store_call sampleReq validOK dbNull).2.2.2.2.2.2.2.2.2.2.1.2⟩

/-- C10: both soft-delete operations pass exactly the update body
`\x7b isDeleted: true \x7d` to the data-access layer — no `updatedBy`, no
other field — so applying that update body leaves every field of a matched
record other than `isDeleted` unchanged. -/
theorem claim_C10_soft_delete_update_body (req : Request) (db : DbCall → DbResult)
    (hids : idsCheckFails (objGet req.body "ids") = false) :
    (softDeleteOrderItem req db).2 =
      [DbCall.findOneAndUpdateDocument [("_id", Value.str req.params_id)]
        [("isDeleted", Value.bool true)] newTrueOptions] ∧
    (softDeleteManyOrderItem req db).2 =
      [DbCall.bulkUpdate
        [("_id", Value.obj [("$in", Option.getD (objGet req.body "ids") Value.null)])]
        [("isDeleted", Value.bool true)]] ∧
    ∀ (record : List (String × Value)) (k : String), k ≠ "isDeleted" →
      objGet (applyUpdate [("isDeleted", Value.bool true)] record) k =
        objGet record k := by
  refine ⟨by simp [softDeleteOrderItem], by simp [softDeleteManyOrderItem, hids], ?_⟩
  intro record k hk
  simpa [applyUpdate] using objGet_objSet_ne record "isDeleted" k (Value.bool true) hk

/-- Witness for C10: soft-deleting leaves the `name` field of a record
untouched. -/
theorem claim_C10_witness :
    (softDeleteOrderItem sampleReq dbNull).2 =
      [DbCall.findOneAndUpdateDocument [("_id", Value.str "aaaaaaaaaaaaaaaaaaaaaaaa")]
        [("isDeleted", Value.bool true)] newTrueOptions] ∧
    objGet (applyUpdate [("isDeleted", Value.bool true)]
        [("name", Value.str "Widget"), ("isDeleted", Value.bool false)]) "name" =
      some (Value.str "Widget") := by
  refine ⟨(claim_C10_soft_delete_update_body sampleReq dbNull rfl).1, ?_⟩
  have h := (claim_C10_soft_delete_update_body sampleReq dbNull rfl).2.2
    [("name", Value.str "Widget"), ("isDeleted", Value.bool false)] "name" (by decide)
  rw [h]
  rfl
